import Mathlib

/-!
Shallow embedding of the Load-Testing-Tool user-provisioning scripts
(`dashboard_user.py`, `new_users.py`, `test.py`, `user_cookies.py`,
`user_cookies1.py`).  Network interactions are abstracted as oracle inputs:
each HTTP response or browser outcome the script would observe is a parameter
of the embedded function.  Python exceptions are modelled with `Except`;
Python `None` with `Option`; the truthiness tests the scripts perform on
strings and dictionaries are modelled explicitly.
-/

/-- An HTTP response as the scripts observe it: the numeric status code and
the string-valued fields of the parsed JSON body (an association list). -/
structure HttpResponse where
  status : Nat
  json : List (String × String)
deriving Repr, DecidableEq

/-- Base origin of the product under test (`BASE_URL` in every script). -/
def BASE_URL : String := "https://164.52.213.158"

/-- The shared password assigned to every generated user (`COMMON_PASSWORD`). -/
def COMMON_PASSWORD : String := "Password123!"

/-- Rendering of an optional value inside a Python f-string: `None` prints as
the four characters `None`. -/
def pyStr : Option String → String
  | some s => s
  | none => "None"

/-- Python truthiness of an optional string: `None` and the empty string are
falsy, every other string is truthy. -/
def truthy : Option String → Bool
  | none => false
  | some s => !(s == "")

/-- Model of `get_admin_token` (dashboard_user.py) = `get_access_token` (new_users.py,
test.py, user_cookies.py, user_cookies1.py): POST to the token endpoint, then
`response.raise_for_status()`, which raises `HTTPError` exactly for status
codes 400–599, then `response.json()["access_token"]`, which raises `KeyError`
when the field is absent.  Either exception aborts the whole run. -/
def get_admin_token (resp : HttpResponse) : Except String String :=
  if 400 ≤ resp.status ∧ resp.status < 600 then .error "HTTPError"
  else
    match resp.json.lookup "access_token" with
    | some t => .ok t
    | none => .error "KeyError"

/-- Model of `create_user` in dashboard_user.py: POSTs the user record and returns
`True` exactly when the response status is 201; any other status is printed
and `False` is returned.  (The `create_user` of the four other scripts has the
same body but returns `None`: its status comparison feeds only a print, and
the caller never consults it.) -/
def create_user (status : Nat) : Bool := status == 201

/-! ### The `action="..."` scanner of `re.search(r'action="([^"]+)"', html)` -/

/-- Match a literal character pattern at the head of the input, returning the
remaining input on success. -/
def matchLiteral : List Char → List Char → Option (List Char)
  | [], rest => some rest
  | _ :: _, [] => none
  | p :: ps, c :: cs => if p = c then matchLiteral ps cs else none

/-- Consume the `([^"]+)"` tail of the pattern: a non-empty run of non-quote
characters followed by a closing quote; `acc` holds the group read so far,
in reverse. -/
def scanGroup : List Char → List Char → Option (List Char)
  | _, [] => none
  | acc, c :: cs =>
    if c = '"' then (if acc.isEmpty then none else some acc.reverse)
    else scanGroup (c :: acc) cs

/-- Attempt to match the whole regex `action="([^"]+)"` at the head of the
input, returning the captured group. -/
def matchActionAt (s : List Char) : Option String :=
  match matchLiteral "action=\"".toList s with
  | none => none
  | some rest => (scanGroup [] rest).map fun cs => String.mk cs

/-- Model of `re.search(r'action="([^"]+)"', html)`: try the pattern at each start
position from left to right and return the first capture. -/
def reSearchAction : List Char → Option String
  | [] => none
  | c :: cs =>
    match matchActionAt (c :: cs) with
    | some v => some v
    | none => reSearchAction cs

/-! ### Strategy A: the scripted redirect walk (`extract_cookies`) -/

/-- The responses the redirect walk of user_cookies.py observes: the
`Location` header of the initial GET (absent when the server did not
redirect), the HTML body served for the follow-up GET, and the contents of
the cookie jar after the final GET of `LOGIN_URL`. -/
structure WalkOracle where
  initialRedirect : Option String
  loginPageHtml : String
  finalCookies : List (String × String)
deriving Repr, DecidableEq

/-- What `extract_cookies` (user_cookies.py, lines 63–98) did: the URL it
fetched for the login page (when it got that far), the URL it POSTed the
credentials to, and its return value. -/
structure WalkTrace where
  loginPageUrl : Option String
  formPostUrl : Option String
  result : Option (List (String × String))
deriving Repr, DecidableEq

/-- Model of `extract_cookies` in user_cookies.py.  The login page is fetched from
`f"{BASE_URL}{redirect_url}"`: the `Location` value is concatenated after the
base origin unconditionally.  A missing (or falsy empty) `Location`, or an
HTML body with no `action="..."` match, returns `None`; otherwise the cookie
jar contents are returned as a dict. -/
def extract_cookies (o : WalkOracle) : WalkTrace :=
  match o.initialRedirect with
  | none => ⟨none, none, none⟩
  | some loc =>
    if loc = "" then ⟨none, none, none⟩
    else
      match reSearchAction o.loginPageHtml.toList with
      | none => ⟨some (BASE_URL ++ loc), none, none⟩
      | some act =>
        if act = "" then ⟨some (BASE_URL ++ loc), none, none⟩
        else ⟨some (BASE_URL ++ loc), some act, some o.finalCookies⟩

/-! ### Strategy B: the browser-driven login of dashboard_user.py -/

/-- Outcome of one browser login attempt as dashboard_user.py observes it:
`navError` is an exception raised by `page.goto`, `page.fill` or `page.click`
(these calls sit outside the script's `try`); `waitTimeout` is the
`page.wait_for_url` timeout, which the bare `except:` catches; `loggedIn`
carries the cookies `context.cookies()` reports after a successful wait. -/
inductive BrowserOutcome
  | navError (msg : String)
  | waitTimeout
  | loggedIn (cookies : List (String × String))
deriving Repr, DecidableEq

/-- One run of `login_vusmartmaps_get_cookies` (dashboard_user.py, lines
71–98) with its resource accounting.  `browserCloseCalled` records whether the
explicit `browser.close()` statement executed; `playwrightStopped` records
that the `with sync_playwright() as p:` block exited — Python runs the context
manager's exit on every path out of the block, including exception
propagation, and stopping the sync_playwright driver terminates every browser
it launched. -/
structure LoginRun where
  result : Except String (Option (List (String × String)))
  browserCloseCalled : Bool
  playwrightStopped : Bool
deriving Repr

/-- The three exit paths of `login_vusmartmaps_get_cookies`: an exception
before the `try` skips `browser.close()` and propagates; the caught timeout
closes the browser and returns `None`; success closes the browser and returns
the cookie dict. -/
def login_run : BrowserOutcome → LoginRun
  | .navError m => ⟨.error m, false, true⟩
  | .waitTimeout => ⟨.ok none, true, true⟩
  | .loggedIn cs => ⟨.ok (some cs), true, true⟩

/-- The value (or exception) `login_vusmartmaps_get_cookies` delivers to its
caller. -/
def login_vusmartmaps_get_cookies (o : BrowserOutcome) :
    Except String (Option (List (String × String))) :=
  (login_run o).result

/-- The browser resource is released when either `browser.close()` ran or the
`with sync_playwright()` block exited. -/
def browserReleased (r : LoginRun) : Bool :=
  r.browserCloseCalled || r.playwrightStopped

/-! ### Run loops -/

/-- Observable outcome of a `main(num_users)` run: the lines written to the
sink in order, the usernames for which session acquisition was attempted, and
the exception that escaped `main`, if any. -/
structure LoopOut where
  lines : List String
  attempted : List String
  err : Option String
deriving Repr, DecidableEq

/-- Per-user input of a dashboard_user.py run: the generated username, the
status of the user-creation POST, and the outcome of the browser login. -/
structure DashUserInput where
  username : String
  createStatus : Nat
  browser : BrowserOutcome
deriving Repr, DecidableEq

/-- Header line written by dashboard_user.py and new_users.py. -/
def cookieHeader : String :=
  "username,password,vunet_session,X-VuNet-HTTP-Info,grafana_session_expiry"

/-- The data row dashboard_user.py writes: the three cookies are read with
`cookies.get(name, "")`, so a missing cookie becomes an empty field. -/
def dashRow (username : String) (cookies : List (String × String)) : String :=
  username ++ "," ++ COMMON_PASSWORD ++ ","
    ++ ((cookies.lookup "vunet_session").getD "") ++ ","
    ++ ((cookies.lookup "X-VuNet-HTTP-Info").getD "") ++ ","
    ++ ((cookies.lookup "grafana_session_expiry").getD "")

/-- The user loop of dashboard_user.py (lines 109–127): a non-201 creation
`continue`s before any login; a login exception escapes the loop (no further
user is processed, lines already written persist); a `None` or empty cookie
dict (`if not cookies:`) skips the user; otherwise a row is written. -/
def dashboard_loop : List DashUserInput → LoopOut
  | [] => ⟨[], [], none⟩
  | u :: rest =>
    if create_user u.createStatus then
      match login_vusmartmaps_get_cookies u.browser with
      | .error e => ⟨[], [u.username], some e⟩
      | .ok none =>
        let r := dashboard_loop rest
        ⟨r.lines, u.username :: r.attempted, r.err⟩
      | .ok (some cookies) =>
        if cookies.isEmpty then
          let r := dashboard_loop rest
          ⟨r.lines, u.username :: r.attempted, r.err⟩
        else
          let r := dashboard_loop rest
          ⟨dashRow u.username cookies :: r.lines, u.username :: r.attempted, r.err⟩
    else
      dashboard_loop rest

/-- Model of `main` in dashboard_user.py: obtain the admin token (failure aborts before
the sink is opened, so not even the header is written), write the header, then
run the user loop. -/
def dashboard_main (adminResp : HttpResponse) (users : List DashUserInput) :
    LoopOut :=
  match get_admin_token adminResp with
  | .error e => ⟨[], [], some e⟩
  | .ok _ =>
    let r := dashboard_loop users
    ⟨cookieHeader :: r.lines, r.attempted, r.err⟩

/-! ### Strategy C: the direct token grant (new_users.py, test.py) -/

/-- Per-user input of a token-grant run: the generated username, the status of
the user-creation POST, and the token-endpoint response for this user. -/
structure TokenUserInput where
  username : String
  createStatus : Nat
  tokenResp : HttpResponse
deriving Repr, DecidableEq

/-- Model of `get_user_tokens` (identical in new_users.py and test.py): any status
other than 200 is printed and `None` returned; otherwise the parsed JSON dict
is returned verbatim. -/
def get_user_tokens (resp : HttpResponse) : Option (List (String × String)) :=
  if resp.status ≠ 200 then none else some resp.json

/-- The data row test.py writes (lines 103–107): `tokens.get` without a
default, so an absent field prints as `None`; order access, refresh, id. -/
def testRow (username : String) (tokens : List (String × String)) : String :=
  username ++ "," ++ COMMON_PASSWORD ++ ","
    ++ pyStr (tokens.lookup "access_token") ++ ","
    ++ pyStr (tokens.lookup "refresh_token") ++ ","
    ++ pyStr (tokens.lookup "id_token")

/-- The data row new_users.py writes (lines 105–110): the tokens are mapped
onto the old cookie columns as `vunet_session = access_token`,
`X-VuNet-HTTP-Info = id_token`, `grafana_session_expiry = refresh_token`, so
the written order is access, id, refresh. -/
def newUsersRow (username : String) (tokens : List (String × String)) : String :=
  username ++ "," ++ COMMON_PASSWORD ++ ","
    ++ pyStr (tokens.lookup "access_token") ++ ","
    ++ pyStr (tokens.lookup "id_token") ++ ","
    ++ pyStr (tokens.lookup "refresh_token")

/-- The user loop of test.py (lines 95–109): `create_user` is called but its
outcome is not consulted; the token grant is attempted for every user; a
`None` or empty token dict (`if not tokens:`) skips the user. -/
def test_loop : List TokenUserInput → LoopOut
  | [] => ⟨[], [], none⟩
  | u :: rest =>
    let r := test_loop rest
    match get_user_tokens u.tokenResp with
    | none => ⟨r.lines, u.username :: r.attempted, r.err⟩
    | some tokens =>
      if tokens.isEmpty then ⟨r.lines, u.username :: r.attempted, r.err⟩
      else ⟨testRow u.username tokens :: r.lines, u.username :: r.attempted, r.err⟩

/-- Model of `main` in test.py: the sink `user_tokens.txt` has no header row. -/
def test_main (adminResp : HttpResponse) (users : List TokenUserInput) :
    LoopOut :=
  match get_admin_token adminResp with
  | .error e => ⟨[], [], some e⟩
  | .ok _ =>
    let r := test_loop users
    ⟨r.lines, r.attempted, r.err⟩

/-- The user loop of new_users.py (lines 97–111): same control flow as
test.py, writing `newUsersRow`. -/
def newUsers_loop : List TokenUserInput → LoopOut
  | [] => ⟨[], [], none⟩
  | u :: rest =>
    let r := newUsers_loop rest
    match get_user_tokens u.tokenResp with
    | none => ⟨r.lines, u.username :: r.attempted, r.err⟩
    | some tokens =>
      if tokens.isEmpty then ⟨r.lines, u.username :: r.attempted, r.err⟩
      else ⟨newUsersRow u.username tokens :: r.lines, u.username :: r.attempted, r.err⟩

/-- Model of `main` in new_users.py: writes the cookie header, then the user loop. -/
def newUsers_main (adminResp : HttpResponse) (users : List TokenUserInput) :
    LoopOut :=
  match get_admin_token adminResp with
  | .error e => ⟨[], [], some e⟩
  | .ok _ =>
    let r := newUsers_loop users
    ⟨cookieHeader :: r.lines, r.attempted, r.err⟩

/-! ### The require-all redirect-walk run (user_cookies.py) -/

/-- Per-user input of a user_cookies.py run. -/
structure WalkUserInput where
  username : String
  createStatus : Nat
  walk : WalkOracle
deriving Repr, DecidableEq

/-- The data row user_cookies.py writes (line 117): the f-string interpolates
the three `cookies.get(name)` values, each known truthy under the guard. -/
def userCookiesRow (username : String) (cs : List (String × String)) : String :=
  username ++ "," ++ COMMON_PASSWORD ++ ","
    ++ pyStr (cs.lookup "vunet_session") ++ ","
    ++ pyStr (cs.lookup "X-VuNet-HTTP-Info") ++ ","
    ++ pyStr (cs.lookup "grafana_session_expiry")

/-- The user loop of user_cookies.py (lines 104–119): creation status unused;
`if not cookies:` skips a `None` result or empty jar; the row is written only
when all three of `vunet_session`, `X-VuNet-HTTP-Info` and
`grafana_session_expiry` are truthy, otherwise only a message is printed. -/
def userCookies_loop : List WalkUserInput → LoopOut
  | [] => ⟨[], [], none⟩
  | u :: rest =>
    let r := userCookies_loop rest
    match (extract_cookies u.walk).result with
    | none => ⟨r.lines, u.username :: r.attempted, r.err⟩
    | some cs =>
      if cs.isEmpty then ⟨r.lines, u.username :: r.attempted, r.err⟩
      else
        if truthy (cs.lookup "vunet_session")
            && truthy (cs.lookup "X-VuNet-HTTP-Info")
            && truthy (cs.lookup "grafana_session_expiry") then
          ⟨userCookiesRow u.username cs :: r.lines, u.username :: r.attempted, r.err⟩
        else ⟨r.lines, u.username :: r.attempted, r.err⟩

/-- Model of `main` in user_cookies.py: `user_cookies.txt` is opened with mode `"w"`
and no header row is written. -/
def userCookies_main (adminResp : HttpResponse) (users : List WalkUserInput) :
    LoopOut :=
  match get_admin_token adminResp with
  | .error e => ⟨[], [], some e⟩
  | .ok _ =>
    let r := userCookies_loop users
    ⟨r.lines, r.attempted, r.err⟩

/-! ### The group-assignment redirect-walk run (user_cookies1.py) -/

/-- The responses the user_cookies1.py walk observes; unlike user_cookies.py
its `extract_cookies` also demands a `Location` header on the credential POST
response (`final_redirect`). -/
structure Walk1Oracle where
  initialRedirect : Option String
  loginPageHtml : String
  authRedirect : Option String
  finalCookies : List (String × String)
deriving Repr, DecidableEq

/-- Model of `extract_cookies` in user_cookies1.py (lines 69–102): as in
user_cookies.py, plus the `final_redirect` check after the credential POST. -/
def extract_cookies1 (o : Walk1Oracle) : Option (List (String × String)) :=
  match o.initialRedirect with
  | none => none
  | some loc =>
    if loc = "" then none
    else
      match reSearchAction o.loginPageHtml.toList with
      | none => none
      | some act =>
        if act = "" then none
        else
          match o.authRedirect with
          | none => none
          | some fr => if fr = "" then none else some o.finalCookies

/-- The admin user-lookup response of `get_user_id`: the status code and the
`id` fields of the returned list of user objects. -/
structure UserLookupResp where
  status : Nat
  ids : List String
deriving Repr, DecidableEq

/-- Model of `get_user_id` (user_cookies1.py, lines 53–64): requires status 200 and a
truthy (non-empty) result list, then takes `response.json()[0]["id"]`. -/
def get_user_id (r : UserLookupResp) : Option String :=
  if r.status == 200 && !r.ids.isEmpty then r.ids.head? else none

/-- Per-user input of a user_cookies1.py run. -/
structure Walk1UserInput where
  username : String
  createStatus : Nat
  idLookup : UserLookupResp
  walk : Walk1Oracle
deriving Repr, DecidableEq

/-- The data row user_cookies1.py writes (line 142): six comma-joined fields —
username, the shared password, the run's admin access token, then the three
cookies read with `cookies.get(name, '')`. -/
def userCookies1Row (token username : String) (cs : List (String × String)) :
    String :=
  String.intercalate "," [username, COMMON_PASSWORD, token,
    (cs.lookup "vunet_session").getD "",
    (cs.lookup "X-VuNet-HTTP-Info").getD "",
    (cs.lookup "grafana_session_expiry").getD ""]

/-- The user loop of user_cookies1.py (lines 131–142): creation status
unused; a resolved user id triggers the group-assignment PUT (whose HTTP
effects do not touch the sink); `if cookies:` writes a row for any non-empty
jar, filling absent cookies with empty fields. -/
def userCookies1_loop (token : String) : List Walk1UserInput → LoopOut
  | [] => ⟨[], [], none⟩
  | u :: rest =>
    let r := userCookies1_loop token rest
    match extract_cookies1 u.walk with
    | none => ⟨r.lines, u.username :: r.attempted, r.err⟩
    | some cs =>
      if cs.isEmpty then ⟨r.lines, u.username :: r.attempted, r.err⟩
      else ⟨userCookies1Row token u.username cs :: r.lines,
            u.username :: r.attempted, r.err⟩

/-- Model of `main` in user_cookies1.py: `user_cookies1.txt` is opened with mode
`"a"`, so the lines of prior runs (`prior`) are kept and this run's rows are
appended after them; no header row is written. -/
def userCookies1_main (adminResp : HttpResponse) (prior : List String)
    (users : List Walk1UserInput) : LoopOut :=
  match get_admin_token adminResp with
  | .error e => ⟨prior, [], some e⟩
  | .ok token =>
    let r := userCookies1_loop token users
    ⟨prior ++ r.lines, r.attempted, r.err⟩

/-! ### Derived per-user predicates -/

/-- Whether a browser outcome is an uncaught navigation/fill exception. -/
def isNavError : BrowserOutcome → Bool
  | .navError _ => true
  | _ => false

/-- The cookies a browser outcome delivers (empty unless logged in). -/
def dashCookies : BrowserOutcome → List (String × String)
  | .loggedIn cs => cs
  | _ => []

/-- A dashboard_user.py iteration writes a row iff creation returned 201 and
the browser login returned a non-empty cookie dict. -/
def dashRecorded (u : DashUserInput) : Bool :=
  create_user u.createStatus &&
    match u.browser with
    | .loggedIn cs => !cs.isEmpty
    | _ => false

/-- A test.py / new_users.py iteration writes a row iff the token grant
returned status 200 with a non-empty JSON dict. -/
def testRecorded (u : TokenUserInput) : Bool :=
  u.tokenResp.status == 200 && !u.tokenResp.json.isEmpty

/-- A user_cookies.py iteration writes a row iff the walk produced a
non-empty jar in which all three expected cookies are truthy. -/
def walkRecorded (u : WalkUserInput) : Bool :=
  match (extract_cookies u.walk).result with
  | none => false
  | some cs =>
    !cs.isEmpty && (truthy (cs.lookup "vunet_session")
      && truthy (cs.lookup "X-VuNet-HTTP-Info")
      && truthy (cs.lookup "grafana_session_expiry"))

/-- The jar a user_cookies.py walk produced (empty on failure). -/
def walkCookies (u : WalkUserInput) : List (String × String) :=
  ((extract_cookies u.walk).result).getD []

/-- A user_cookies1.py iteration writes a row iff the walk produced a
non-empty jar. -/
def walk1Recorded (u : Walk1UserInput) : Bool :=
  match extract_cookies1 u.walk with
  | none => false
  | some cs => !cs.isEmpty

/-- The jar a user_cookies1.py walk produced (empty on failure). -/
def walk1Cookies (u : Walk1UserInput) : List (String × String) :=
  (extract_cookies1 u.walk).getD []

/-! ### Characterization lemmas for the run loops -/

lemma test_loop_eq (users : List TokenUserInput) :
    test_loop users =
      ⟨(users.filter testRecorded).map (fun u => testRow u.username u.tokenResp.json),
       users.map (fun u => u.username), none⟩ := by
  induction users with
  | nil => rfl
  | cons u rest ih =>
    by_cases h : u.tokenResp.status = 200
    · by_cases he : u.tokenResp.json.isEmpty
      · simp [test_loop, ih, get_user_tokens, testRecorded, h, he]
      · simp [test_loop, ih, get_user_tokens, testRecorded, h, he]
    · simp [test_loop, ih, get_user_tokens, testRecorded, h]

lemma newUsers_loop_eq (users : List TokenUserInput) :
    newUsers_loop users =
      ⟨(users.filter testRecorded).map (fun u => newUsersRow u.username u.tokenResp.json),
       users.map (fun u => u.username), none⟩ := by
  induction users with
  | nil => rfl
  | cons u rest ih =>
    by_cases h : u.tokenResp.status = 200
    · by_cases he : u.tokenResp.json.isEmpty
      · simp [newUsers_loop, ih, get_user_tokens, testRecorded, h, he]
      · simp [newUsers_loop, ih, get_user_tokens, testRecorded, h, he]
    · simp [newUsers_loop, ih, get_user_tokens, testRecorded, h]

lemma dashboard_loop_eq (users : List DashUserInput)
    (hna : ∀ u ∈ users, isNavError u.browser = false) :
    dashboard_loop users =
      ⟨(users.filter dashRecorded).map
          (fun u => dashRow u.username (dashCookies u.browser)),
       (users.filter fun u => create_user u.createStatus).map (fun u => u.username),
       none⟩ := by
  induction users with
  | nil => rfl
  | cons u rest ih =>
    have hu : isNavError u.browser = false := hna u (List.mem_cons_self u rest)
    have hrest : ∀ v ∈ rest, isNavError v.browser = false := fun v hv =>
      hna v (List.mem_cons_of_mem u hv)
    by_cases hc : create_user u.createStatus
    · cases hb : u.browser with
      | navError m => simp [isNavError, hb] at hu
      | waitTimeout =>
        simp [dashboard_loop, ih hrest, hc, hb, login_vusmartmaps_get_cookies,
          login_run, dashRecorded]
      | loggedIn cs =>
        by_cases he : cs.isEmpty
        · simp [dashboard_loop, ih hrest, hc, hb, login_vusmartmaps_get_cookies,
            login_run, dashRecorded, he]
        · simp [dashboard_loop, ih hrest, hc, hb, login_vusmartmaps_get_cookies,
            login_run, dashRecorded, dashCookies, he]
    · simp [dashboard_loop, ih hrest, hc, dashRecorded]

lemma dashboard_loop_lines_le (users : List DashUserInput) :
    (dashboard_loop users).lines.length ≤ users.length := by
  induction users with
  | nil => simp [dashboard_loop]
  | cons u rest ih =>
    by_cases hc : create_user u.createStatus
    · cases hb : u.browser with
      | navError m =>
        simp [dashboard_loop, hc, hb, login_vusmartmaps_get_cookies, login_run]
      | waitTimeout =>
        simp only [dashboard_loop, hc, hb, login_vusmartmaps_get_cookies, login_run,
          if_pos]
        simpa using Nat.le_succ_of_le ih
      | loggedIn cs =>
        by_cases he : cs.isEmpty
        · simp only [dashboard_loop, hc, hb, login_vusmartmaps_get_cookies,
            login_run, he, if_pos]
          simpa [he] using Nat.le_succ_of_le ih
        · simp only [dashboard_loop, hc, hb, login_vusmartmaps_get_cookies,
            login_run, he, if_pos]
          simpa [he] using Nat.succ_le_succ ih
    · simp only [dashboard_loop, hc, if_neg]
      simpa [hc] using Nat.le_succ_of_le ih

lemma userCookies_loop_eq (users : List WalkUserInput) :
    userCookies_loop users =
      ⟨(users.filter walkRecorded).map
          (fun u => userCookiesRow u.username (walkCookies u)),
       users.map (fun u => u.username), none⟩ := by
  induction users with
  | nil => rfl
  | cons u rest ih =>
    cases hr : (extract_cookies u.walk).result with
    | none => simp [userCookies_loop, ih, walkRecorded, hr]
    | some cs =>
      by_cases he : cs.isEmpty
      · simp [userCookies_loop, ih, walkRecorded, hr, he]
      · by_cases ht : truthy (cs.lookup "vunet_session")
            && truthy (cs.lookup "X-VuNet-HTTP-Info")
            && truthy (cs.lookup "grafana_session_expiry")
        · simp [userCookies_loop, ih, walkRecorded, walkCookies, hr, he, ht]
        · simp [userCookies_loop, ih, walkRecorded, hr, he, ht]

lemma userCookies1_loop_eq (token : String) (users : List Walk1UserInput) :
    userCookies1_loop token users =
      ⟨(users.filter walk1Recorded).map
          (fun u => userCookies1Row token u.username (walk1Cookies u)),
       users.map (fun u => u.username), none⟩ := by
  induction users with
  | nil => rfl
  | cons u rest ih =>
    cases hr : extract_cookies1 u.walk with
    | none => simp [userCookies1_loop, ih, walk1Recorded, hr]
    | some cs =>
      by_cases he : cs.isEmpty
      · simp [userCookies1_loop, ih, walk1Recorded, hr, he]
      · simp [userCookies1_loop, ih, walk1Recorded, walk1Cookies, hr, he]

/-! ### First-occurrence characterization of the regex search -/

lemma matchActionAt_nil : matchActionAt [] = none := rfl

lemma truthy_eq_true_iff (x : Option String) :
    truthy x = true ↔ ∃ v, x = some v ∧ v ≠ "" := by
  cases x with
  | none => simp [truthy]
  | some s => simp [truthy]

lemma reSearchAction_first (s : List Char) (v : String) :
    reSearchAction s = some v ↔
      ∃ i, matchActionAt (s.drop i) = some v
        ∧ ∀ j, j < i → matchActionAt (s.drop j) = none := by
  induction s with
  | nil =>
    simp only [reSearchAction, List.drop_nil, matchActionAt_nil]
    constructor
    · intro h; cases h
    · rintro ⟨i, hi, -⟩; cases hi
  | cons c cs ih =>
    cases h : matchActionAt (c :: cs) with
    | some w =>
      simp only [reSearchAction, h]
      constructor
      · intro hv
        refine ⟨0, ?_, fun j hj => absurd hj (Nat.not_lt_zero j)⟩
        rw [List.drop_zero, h, hv]
      · rintro ⟨i, hi, hj⟩
        cases i with
        | zero =>
          rw [List.drop_zero, h] at hi
          exact hi
        | succ n =>
          have h0 := hj 0 (Nat.succ_pos n)
          rw [List.drop_zero, h] at h0
          cases h0
    | none =>
      simp only [reSearchAction, h, ih]
      constructor
      · rintro ⟨i, hi, hj⟩
        refine ⟨i + 1, by simpa [List.drop_succ_cons] using hi, fun j hjlt => ?_⟩
        cases j with
        | zero => simpa [List.drop_zero] using h
        | succ m =>
          simpa [List.drop_succ_cons] using hj m (Nat.lt_of_succ_lt_succ hjlt)
      · rintro ⟨i, hi, hj⟩
        cases i with
        | zero =>
          rw [List.drop_zero, h] at hi
          cases hi
        | succ n =>
          refine ⟨n, by simpa [List.drop_succ_cons] using hi, fun j hjlt => ?_⟩
          simpa [List.drop_succ_cons] using hj (j + 1) (Nat.succ_lt_succ hjlt)

/-! ### Claim theorems -/

/-- C8: in the browser-driven login, the browser resource is released on
every exit path of `login_vusmartmaps_get_cookies` — successful login, wait
timeout, and an exception raised during navigation or form filling — because
the two non-exception paths execute `browser.close()` and the exception path
still exits the `with sync_playwright()` block, whose context-manager exit
stops the driver and the browsers it launched. -/
theorem c8_browser_released_on_every_path (o : BrowserOutcome) :
    browserReleased (login_run o) = true := by
  cases o <;> rfl

/-- C3: when the admin-token request returns a non-success HTTP status, or
its JSON body lacks the `access_token` field, `main` aborts before the user
loop: the sink receives zero lines (not even the header row written by
dashboard_user.py and new_users.py) and no session acquisition is attempted
for any user. -/
theorem c3_token_failure_writes_nothing (adminResp : HttpResponse)
    (users : List DashUserInput) (tusers : List TokenUserInput)
    (h : (400 ≤ adminResp.status ∧ adminResp.status < 600)
          ∨ adminResp.json.lookup "access_token" = none) :
    ((dashboard_main adminResp users).lines = []
      ∧ (dashboard_main adminResp users).attempted = [])
    ∧ ((newUsers_main adminResp tusers).lines = []
      ∧ (newUsers_main adminResp tusers).attempted = []) := by
  have herr : ∃ e, get_admin_token adminResp = .error e := by
    by_cases hs : 400 ≤ adminResp.status ∧ adminResp.status < 600
    · exact ⟨"HTTPError", by unfold get_admin_token; rw [if_pos hs]⟩
    · rcases h with h | h
      · exact absurd h hs
      · refine ⟨"KeyError", ?_⟩
        unfold get_admin_token
        rw [if_neg hs, h]
  obtain ⟨e, he⟩ := herr
  refine ⟨⟨?_, ?_⟩, ?_, ?_⟩ <;> simp [dashboard_main, newUsers_main, he]

/-- C3 witness: an admin-token response with status 401 aborts a concrete
run with zero output lines. -/
theorem c3_witness :
    ((dashboard_main ⟨401, []⟩ [⟨"u1", 201, .loggedIn [("vunet_session", "s")]⟩]).lines = []
      ∧ (dashboard_main ⟨401, []⟩ [⟨"u1", 201, .loggedIn [("vunet_session", "s")]⟩]).attempted = [])
    ∧ ((newUsers_main ⟨401, []⟩ [⟨"u2", 201, ⟨200, [("access_token", "a")]⟩⟩]).lines = []
      ∧ (newUsers_main ⟨401, []⟩ [⟨"u2", 201, ⟨200, [("access_token", "a")]⟩⟩]).attempted = []) :=
  c3_token_failure_writes_nothing ⟨401, []⟩
    [⟨"u1", 201, .loggedIn [("vunet_session", "s")]⟩]
    [⟨"u2", 201, ⟨200, [("access_token", "a")]⟩⟩]
    (Or.inl (by decide))

/-- C2 counterexample: when the initial GET returns the absolute redirect
target `https://other/auth`, the redirect walk fetches the login page from
`f"{BASE_URL}{redirect_url}"`, i.e. the malformed
`https://164.52.213.158https://other/auth` — the absolute target IS
re-prefixed with the base origin, contrary to the claim. -/
theorem c2_counterexample_absolute_target_altered :
    (extract_cookies ⟨some "https://other/auth", "", []⟩).loginPageUrl
        = some ("https://164.52.213.158" ++ "https://other/auth")
    ∧ (extract_cookies ⟨some "https://other/auth", "", []⟩).loginPageUrl
        ≠ some "https://other/auth" := by
  refine ⟨rfl, ?_⟩
  decide

/-- C2 amended: every non-empty `Location` value, relative or absolute, is
concatenated after the base origin before the follow-up GET.  A relative
target such as `/auth?x=1` is thereby resolved correctly to
`https://164.52.213.158/auth?x=1`, but an absolute target is altered too
(re-prefixed), producing a malformed URL. -/
theorem c2_amended_location_always_prefixed (o : WalkOracle) (loc : String)
    (h1 : o.initialRedirect = some loc) (h2 : loc ≠ "") :
    (extract_cookies o).loginPageUrl = some (BASE_URL ++ loc)
      ∧ BASE_URL ++ "/auth?x=1" = "https://164.52.213.158/auth?x=1" := by
  refine ⟨?_, rfl⟩
  simp only [extract_cookies, h1]
  rw [if_neg h2]
  cases hm : reSearchAction o.loginPageHtml.toList with
  | none => rfl
  | some act => by_cases ha : act = "" <;> simp [ha]

/-- C2 witness: the amended theorem applied to a run whose initial GET
redirects to the relative target `/auth?x=1`. -/
theorem c2_witness :
    (extract_cookies ⟨some "/auth?x=1", "", []⟩).loginPageUrl
        = some (BASE_URL ++ "/auth?x=1")
      ∧ BASE_URL ++ "/auth?x=1" = "https://164.52.213.158/auth?x=1" :=
  c2_amended_location_always_prefixed ⟨some "/auth?x=1", "", []⟩ "/auth?x=1"
    rfl (by decide)

/-- C6: form-action extraction returns the capture of the first position (in
left-to-right order) at which `action="([^"]+)"` matches; on the two-form
input `<form action="/a">...<form action="/b">` it returns `/a`; and an HTML
body with no such attribute makes the walk fail for this user — no credential
POST happens and the result is `None` ("could not extract form action"). -/
theorem c6_first_form_action :
    (∀ (s : List Char) (v : String),
        reSearchAction s = some v ↔
          ∃ i, matchActionAt (s.drop i) = some v
            ∧ ∀ j, j < i → matchActionAt (s.drop j) = none)
    ∧ reSearchAction ("<form action=\"/a\">...<form action=\"/b\">".toList)
        = some "/a"
    ∧ (∀ (o : WalkOracle) (loc : String),
        o.initialRedirect = some loc → loc ≠ "" →
        reSearchAction o.loginPageHtml.toList = none →
        (extract_cookies o).formPostUrl = none
          ∧ (extract_cookies o).result = none) := by
  refine ⟨reSearchAction_first, by rfl, ?_⟩
  intro o loc h1 h2 h3
  have h3' : reSearchAction o.loginPageHtml.data = none := h3
  simp [extract_cookies, h1, h2, h3']

/-- C6 witness: the first-match extraction on the two-form page, and the
failure of the walk on a form-free page. -/
theorem c6_witness :
    reSearchAction ("<form action=\"/a\">...<form action=\"/b\">".toList)
        = some "/a"
    ∧ ((extract_cookies ⟨some "/page", "<p>no form here</p>", []⟩).formPostUrl = none
      ∧ (extract_cookies ⟨some "/page", "<p>no form here</p>", []⟩).result = none) :=
  ⟨c6_first_form_action.2.1,
   c6_first_form_action.2.2 ⟨some "/page", "<p>no form here</p>", []⟩ "/page"
     rfl (by decide) (by rfl)⟩

/-- C1 counterexample: new_users.py never consults the creation status — for
a user whose creation POST returned HTTP 409, the token grant is still
attempted and, succeeding, a record is still written. -/
theorem c1_counterexample_no_skip_in_newUsers :
    (newUsers_main ⟨200, [("access_token", "t")]⟩
        [⟨"load_user_42", 409,
          ⟨200, [("access_token", "a"), ("refresh_token", "r"), ("id_token", "i")]⟩⟩]).attempted
      = ["load_user_42"]
    ∧ (newUsers_main ⟨200, [("access_token", "t")]⟩
        [⟨"load_user_42", 409,
          ⟨200, [("access_token", "a"), ("refresh_token", "r"), ("id_token", "i")]⟩⟩]).lines
      = [cookieHeader, "load_user_42,Password123!,a,i,r"]
    ∧ create_user 409 = false :=
  ⟨rfl, rfl, rfl⟩

/-- C1 amended: only the dashboard_user.py variant skips a user whose
creation did not return 201 — there, in a run with no uncaught browser
exception, logins are attempted exactly for the 201-created users and every
row comes from a user that was created and produced a non-empty cookie dict.
The new_users.py variant prints the creation failure and attempts the token
grant for every user regardless. -/
theorem c1_amended_skip_only_in_dashboard (adminResp : HttpResponse)
    (t : String) (users : List DashUserInput) (tusers : List TokenUserInput)
    (hok : get_admin_token adminResp = .ok t)
    (hna : ∀ u ∈ users, isNavError u.browser = false) :
    (dashboard_main adminResp users).attempted
        = (users.filter fun u => create_user u.createStatus).map (fun u => u.username)
    ∧ (dashboard_main adminResp users).lines
        = cookieHeader :: (users.filter dashRecorded).map
            (fun u => dashRow u.username (dashCookies u.browser))
    ∧ (newUsers_main adminResp tusers).attempted
        = tusers.map (fun u => u.username) := by
  refine ⟨?_, ?_, ?_⟩ <;>
    simp [dashboard_main, newUsers_main, hok, dashboard_loop_eq users hna,
      newUsers_loop_eq]

/-- C1 witness: a concrete dashboard run where the first user's creation
returns 409 and the second returns 201: only the second login is attempted
and only the second row is written. -/
theorem c1_witness :
    (dashboard_main ⟨200, [("access_token", "t")]⟩
        [⟨"load_user_42", 409, .loggedIn [("vunet_session", "s")]⟩,
         ⟨"load_user_43", 201, .loggedIn [("vunet_session", "s")]⟩]).attempted
      = (([⟨"load_user_42", 409, .loggedIn [("vunet_session", "s")]⟩,
           ⟨"load_user_43", 201, .loggedIn [("vunet_session", "s")]⟩] :
            List DashUserInput).filter
          fun u => create_user u.createStatus).map (fun u => u.username)
    ∧ (dashboard_main ⟨200, [("access_token", "t")]⟩
        [⟨"load_user_42", 409, .loggedIn [("vunet_session", "s")]⟩,
         ⟨"load_user_43", 201, .loggedIn [("vunet_session", "s")]⟩]).lines
      = cookieHeader :: (([⟨"load_user_42", 409, .loggedIn [("vunet_session", "s")]⟩,
           ⟨"load_user_43", 201, .loggedIn [("vunet_session", "s")]⟩] :
            List DashUserInput).filter dashRecorded).map
          (fun u => dashRow u.username (dashCookies u.browser))
    ∧ (newUsers_main ⟨200, [("access_token", "t")]⟩
        ([] : List TokenUserInput)).attempted
      = ([] : List TokenUserInput).map (fun u => u.username) :=
  c1_amended_skip_only_in_dashboard ⟨200, [("access_token", "t")]⟩ "t"
    [⟨"load_user_42", 409, .loggedIn [("vunet_session", "s")]⟩,
     ⟨"load_user_43", 201, .loggedIn [("vunet_session", "s")]⟩] [] rfl
    (by intro u hu; fin_cases hu <;> rfl)

/-- C4 counterexample: an exception raised during browser navigation is not
caught by the run loop.  With two users whose creations succeed and whose
first login raises, the exception escapes `main`: the second user is never
attempted and zero data rows are written, not N − failures = 1. -/
theorem c4_counterexample_exception_escapes :
    (dashboard_main ⟨200, [("access_token", "t")]⟩
        [⟨"u1", 201, .navError "Page.goto: net::ERR_CONNECTION_REFUSED"⟩,
         ⟨"u2", 201, .loggedIn [("vunet_session", "s")]⟩]).err
      = some "Page.goto: net::ERR_CONNECTION_REFUSED"
    ∧ (dashboard_main ⟨200, [("access_token", "t")]⟩
        [⟨"u1", 201, .navError "Page.goto: net::ERR_CONNECTION_REFUSED"⟩,
         ⟨"u2", 201, .loggedIn [("vunet_session", "s")]⟩]).attempted
      = ["u1"]
    ∧ (dashboard_main ⟨200, [("access_token", "t")]⟩
        [⟨"u1", 201, .navError "Page.goto: net::ERR_CONNECTION_REFUSED"⟩,
         ⟨"u2", 201, .loggedIn [("vunet_session", "s")]⟩]).lines
      = [cookieHeader] :=
  ⟨rfl, rfl, rfl⟩

/-- C4 amended: every checked per-user failure (non-201 creation, login wait
timeout, empty cookie dict) is converted to a skip — in a run whose browser
attempts raise no exception, nothing escapes the loop and the data-record
count is exactly N minus the number of failed users.  Exceptions raised by
the underlying browser calls, however, are not caught and abort the run. -/
theorem c4_amended_checked_failures_skip (adminResp : HttpResponse)
    (t : String) (users : List DashUserInput)
    (hok : get_admin_token adminResp = .ok t)
    (hna : ∀ u ∈ users, isNavError u.browser = false) :
    (dashboard_main adminResp users).err = none
    ∧ (dashboard_main adminResp users).lines.length
        = 1 + users.countP dashRecorded
    ∧ users.countP dashRecorded + users.countP (fun u => !dashRecorded u)
        = users.length := by
  have hmain : dashboard_main adminResp users =
      ⟨cookieHeader :: (users.filter dashRecorded).map
          (fun u => dashRow u.username (dashCookies u.browser)),
       (users.filter fun u => create_user u.createStatus).map (fun u => u.username),
       none⟩ := by
    simp [dashboard_main, hok, dashboard_loop_eq users hna]
  refine ⟨by rw [hmain], ?_, ?_⟩
  · rw [hmain]
    simp [List.countP_eq_length_filter]
    omega
  · rw [List.countP_eq_length_filter, List.countP_eq_length_filter]
    exact (List.length_eq_length_filter_add dashRecorded).symm

/-- C4 witness: a concrete exception-free run with one timeout among two
users: no error escapes and exactly one data row is written. -/
theorem c4_witness :
    (dashboard_main ⟨200, [("access_token", "t")]⟩
        [⟨"w1", 201, .waitTimeout⟩,
         ⟨"w2", 201, .loggedIn [("vunet_session", "s")]⟩]).err = none
    ∧ (dashboard_main ⟨200, [("access_token", "t")]⟩
        [⟨"w1", 201, .waitTimeout⟩,
         ⟨"w2", 201, .loggedIn [("vunet_session", "s")]⟩]).lines.length
      = 1 + ([⟨"w1", 201, .waitTimeout⟩,
              ⟨"w2", 201, .loggedIn [("vunet_session", "s")]⟩] :
               List DashUserInput).countP dashRecorded
    ∧ ([⟨"w1", 201, .waitTimeout⟩,
        ⟨"w2", 201, .loggedIn [("vunet_session", "s")]⟩] :
          List DashUserInput).countP dashRecorded
        + ([⟨"w1", 201, .waitTimeout⟩,
            ⟨"w2", 201, .loggedIn [("vunet_session", "s")]⟩] :
             List DashUserInput).countP (fun u => !dashRecorded u)
      = ([⟨"w1", 201, .waitTimeout⟩,
          ⟨"w2", 201, .loggedIn [("vunet_session", "s")]⟩] :
           List DashUserInput).length :=
  c4_amended_checked_failures_skip ⟨200, [("access_token", "t")]⟩ "t"
    [⟨"w1", 201, .waitTimeout⟩, ⟨"w2", 201, .loggedIn [("vunet_session", "s")]⟩]
    rfl (by intro u hu; fin_cases hu <;> rfl)

/-- C5 counterexample: new_users.py maps the token triple onto the old cookie
columns as access, id, refresh — for the token body a/r/i the written row is
`username,password,a,i,r`, not the claimed `username,password,a,r,i`. -/
theorem c5_counterexample_newUsers_order :
    (newUsers_main ⟨200, [("access_token", "t")]⟩
        [⟨"load_user_7", 201,
          ⟨200, [("access_token", "a"), ("refresh_token", "r"), ("id_token", "i")]⟩⟩]).lines
      = [cookieHeader, "load_user_7,Password123!,a,i,r"]
    ∧ "load_user_7,Password123!,a,i,r" ≠ "load_user_7,Password123!,a,r,i" := by
  refine ⟨rfl, ?_⟩
  decide

/-- C5 amended: in test.py a user whose token endpoint returns 200 with the
body a/r/i gets exactly the row `username,password,a,r,i` (tokens in order
access, refresh, id), and that row is written to the sink; new_users.py,
however, writes the same triple in the order access, id, refresh. -/
theorem c5_amended_token_row_orders (adminResp : HttpResponse) (t : String)
    (users : List TokenUserInput) (u : TokenUserInput) (a r i : String)
    (hok : get_admin_token adminResp = .ok t) (hu : u ∈ users)
    (hst : u.tokenResp.status = 200)
    (hjs : u.tokenResp.json
        = [("access_token", a), ("refresh_token", r), ("id_token", i)]) :
    testRow u.username u.tokenResp.json
        = u.username ++ "," ++ COMMON_PASSWORD ++ ","
            ++ a ++ "," ++ r ++ "," ++ i
    ∧ testRow u.username u.tokenResp.json ∈ (test_main adminResp users).lines
    ∧ newUsersRow u.username u.tokenResp.json
        = u.username ++ "," ++ COMMON_PASSWORD ++ ","
            ++ a ++ "," ++ i ++ "," ++ r := by
  have l1 : u.tokenResp.json.lookup "access_token" = some a := by rw [hjs]; rfl
  have l2 : u.tokenResp.json.lookup "refresh_token" = some r := by rw [hjs]; rfl
  have l3 : u.tokenResp.json.lookup "id_token" = some i := by rw [hjs]; rfl
  refine ⟨?_, ?_, ?_⟩
  · simp [testRow, l1, l2, l3, pyStr]
  · have hmain : (test_main adminResp users).lines
        = (users.filter testRecorded).map
            (fun v => testRow v.username v.tokenResp.json) := by
      simp [test_main, hok, test_loop_eq]
    rw [hmain]
    refine List.mem_map.mpr ⟨u, ?_, rfl⟩
    refine List.mem_filter.mpr ⟨hu, ?_⟩
    simp [testRecorded, hst, hjs]
  · simp [newUsersRow, l1, l2, l3, pyStr]

/-- C5 witness: the amended theorem at a concrete single-user run. -/
theorem c5_witness :
    testRow "load_user_8"
        [("access_token", "a"), ("refresh_token", "r"), ("id_token", "i")]
      = "load_user_8" ++ "," ++ COMMON_PASSWORD ++ ","
          ++ "a" ++ "," ++ "r" ++ "," ++ "i"
    ∧ testRow "load_user_8"
        [("access_token", "a"), ("refresh_token", "r"), ("id_token", "i")]
      ∈ (test_main ⟨200, [("access_token", "t")]⟩
          [⟨"load_user_8", 201,
            ⟨200, [("access_token", "a"), ("refresh_token", "r"), ("id_token", "i")]⟩⟩]).lines
    ∧ newUsersRow "load_user_8"
        [("access_token", "a"), ("refresh_token", "r"), ("id_token", "i")]
      = "load_user_8" ++ "," ++ COMMON_PASSWORD ++ ","
          ++ "a" ++ "," ++ "i" ++ "," ++ "r" :=
  c5_amended_token_row_orders ⟨200, [("access_token", "t")]⟩ "t"
    [⟨"load_user_8", 201,
      ⟨200, [("access_token", "a"), ("refresh_token", "r"), ("id_token", "i")]⟩⟩]
    ⟨"load_user_8", 201,
      ⟨200, [("access_token", "a"), ("refresh_token", "r"), ("id_token", "i")]⟩⟩
    "a" "r" "i" rfl (List.mem_singleton.mpr rfl) rfl rfl

/-- C7 counterexample: test.py invokes the recorder for a user whose
provisioning failed — with creation returning 409 and the token grant
succeeding, a row is still written, so a record does not require provisioning
success. -/
theorem c7_counterexample_record_without_provisioning :
    (test_main ⟨200, [("access_token", "t")]⟩
        [⟨"load_user_13", 409,
          ⟨200, [("access_token", "a"), ("refresh_token", "r"), ("id_token", "i")]⟩⟩]).lines
      = ["load_user_13,Password123!,a,r,i"]
    ∧ create_user 409 = false :=
  ⟨rfl, rfl⟩

/-- C7 amended: every variant writes at most N data records for N requested
users and invokes the recorder at most once per user, a row always requires
session-acquisition success, and provisioning success is additionally
required only in the dashboard_user.py variant; test.py records any user
whose token grant succeeded, regardless of the provisioning outcome. -/
theorem c7_amended_at_most_once_per_user (adminResp tresp : HttpResponse)
    (t s : String) (users : List DashUserInput) (tusers : List TokenUserInput)
    (hok : get_admin_token adminResp = .ok t)
    (hna : ∀ u ∈ users, isNavError u.browser = false)
    (htok : get_admin_token tresp = .ok s) :
    (dashboard_main adminResp users).lines.length ≤ users.length + 1
    ∧ (test_main tresp tusers).lines.length ≤ tusers.length
    ∧ (dashboard_main adminResp users).lines
        = cookieHeader :: (users.filter dashRecorded).map
            (fun u => dashRow u.username (dashCookies u.browser))
    ∧ (test_main tresp tusers).lines
        = (tusers.filter testRecorded).map
            (fun u => testRow u.username u.tokenResp.json) := by
  have hd : (dashboard_main adminResp users).lines
      = cookieHeader :: (users.filter dashRecorded).map
          (fun u => dashRow u.username (dashCookies u.browser)) := by
    simp [dashboard_main, hok, dashboard_loop_eq users hna]
  have ht : (test_main tresp tusers).lines
      = (tusers.filter testRecorded).map
          (fun u => testRow u.username u.tokenResp.json) := by
    simp [test_main, htok, test_loop_eq]
  refine ⟨?_, ?_, hd, ht⟩
  · rw [hd]
    have := List.length_filter_le dashRecorded users
    simp only [List.length_cons, List.length_map]
    omega
  · rw [ht]
    have := List.length_filter_le testRecorded tusers
    simp only [List.length_map]
    omega

/-- C7 witness: the amended theorem at a concrete pair of runs. -/
theorem c7_witness :
    (dashboard_main ⟨200, [("access_token", "t")]⟩
        [⟨"d1", 201, .loggedIn [("vunet_session", "s")]⟩]).lines.length
      ≤ ([⟨"d1", 201, .loggedIn [("vunet_session", "s")]⟩] :
           List DashUserInput).length + 1
    ∧ (test_main ⟨200, [("access_token", "t")]⟩
        [⟨"t1", 201, ⟨403, []⟩⟩]).lines.length
      ≤ ([⟨"t1", 201, ⟨403, []⟩⟩] : List TokenUserInput).length
    ∧ (dashboard_main ⟨200, [("access_token", "t")]⟩
        [⟨"d1", 201, .loggedIn [("vunet_session", "s")]⟩]).lines
      = cookieHeader :: (([⟨"d1", 201, .loggedIn [("vunet_session", "s")]⟩] :
            List DashUserInput).filter dashRecorded).map
          (fun u => dashRow u.username (dashCookies u.browser))
    ∧ (test_main ⟨200, [("access_token", "t")]⟩
        [⟨"t1", 201, ⟨403, []⟩⟩]).lines
      = (([⟨"t1", 201, ⟨403, []⟩⟩] : List TokenUserInput).filter testRecorded).map
          (fun u => testRow u.username u.tokenResp.json) :=
  c7_amended_at_most_once_per_user ⟨200, [("access_token", "t")]⟩
    ⟨200, [("access_token", "t")]⟩ "t" "t"
    [⟨"d1", 201, .loggedIn [("vunet_session", "s")]⟩]
    [⟨"t1", 201, ⟨403, []⟩⟩] rfl
    (by intro u hu; fin_cases hu; rfl) rfl

/-- C9: in the require-all variant user_cookies.py, every line written to the
sink comes from a user whose extracted jar holds all three of
`vunet_session`, `X-VuNet-HTTP-Info` and `grafana_session_expiry` with
non-empty values, and the line is the full five-field row built from those
values — a user missing any of the three produces no line at all, never a
partial one. -/
theorem c9_rows_require_all_three_cookies (adminResp : HttpResponse)
    (users : List WalkUserInput) (line : String)
    (hline : line ∈ (userCookies_main adminResp users).lines) :
    ∃ u ∈ users, ∃ v1 v2 v3 : String,
      (walkCookies u).lookup "vunet_session" = some v1 ∧ v1 ≠ ""
      ∧ (walkCookies u).lookup "X-VuNet-HTTP-Info" = some v2 ∧ v2 ≠ ""
      ∧ (walkCookies u).lookup "grafana_session_expiry" = some v3 ∧ v3 ≠ ""
      ∧ line = u.username ++ "," ++ COMMON_PASSWORD ++ ","
                ++ v1 ++ "," ++ v2 ++ "," ++ v3 := by
  cases hga : get_admin_token adminResp with
  | error e => simp [userCookies_main, hga] at hline
  | ok t =>
    have hmain : (userCookies_main adminResp users).lines
        = (users.filter walkRecorded).map
            (fun u => userCookiesRow u.username (walkCookies u)) := by
      simp [userCookies_main, hga, userCookies_loop_eq]
    rw [hmain] at hline
    obtain ⟨u, hu, hrow⟩ := List.mem_map.mp hline
    obtain ⟨humem, hrec⟩ := List.mem_filter.mp hu
    refine ⟨u, humem, ?_⟩
    unfold walkRecorded at hrec
    cases hres : (extract_cookies u.walk).result with
    | none => rw [hres] at hrec; cases hrec
    | some cs =>
      rw [hres] at hrec
      have hcs : walkCookies u = cs := by simp [walkCookies, hres]
      simp only [Bool.and_eq_true, truthy_eq_true_iff] at hrec
      obtain ⟨-, ⟨⟨v1, hl1, hv1⟩, ⟨v2, hl2, hv2⟩⟩, v3, hl3, hv3⟩ := hrec
      refine ⟨v1, v2, v3, by rw [hcs, hl1], hv1, by rw [hcs, hl2], hv2,
        by rw [hcs, hl3], hv3, ?_⟩
      rw [← hrow, hcs]
      simp [userCookiesRow, hl1, hl2, hl3, pyStr]

/-- C9 witness: a concrete single-user run whose jar holds all three cookies;
the written line is the full five-field row. -/
theorem c9_witness :
    ∃ u ∈ ([⟨"u1", 201,
        ⟨some "/r", "<form action=\"https://kc/login\">",
          [("vunet_session", "v"), ("X-VuNet-HTTP-Info", "x"),
           ("grafana_session_expiry", "g")]⟩⟩] : List WalkUserInput),
      ∃ v1 v2 v3 : String,
        (walkCookies u).lookup "vunet_session" = some v1 ∧ v1 ≠ ""
        ∧ (walkCookies u).lookup "X-VuNet-HTTP-Info" = some v2 ∧ v2 ≠ ""
        ∧ (walkCookies u).lookup "grafana_session_expiry" = some v3 ∧ v3 ≠ ""
        ∧ "u1,Password123!,v,x,g" = u.username ++ "," ++ COMMON_PASSWORD ++ ","
                  ++ v1 ++ "," ++ v2 ++ "," ++ v3 :=
  c9_rows_require_all_three_cookies ⟨200, [("access_token", "t")]⟩
    [⟨"u1", 201,
      ⟨some "/r", "<form action=\"https://kc/login\">",
        [("vunet_session", "v"), ("X-VuNet-HTTP-Info", "x"),
         ("grafana_session_expiry", "g")]⟩⟩]
    "u1,Password123!,v,x,g" (by decide)

/-- C10: in the group-assignment variant user_cookies1.py the sink is opened
in append mode — the lines of prior runs stay in place and this run's rows
follow them — and every new row is the six-field comma-joined record whose
third field is the run's shared admin access token, followed by the three
cookie values (empty string when absent). -/
theorem c10_six_field_rows_appended (adminResp : HttpResponse)
    (token : String) (prior : List String) (users : List Walk1UserInput)
    (hok : get_admin_token adminResp = .ok token) :
    (userCookies1_main adminResp prior users).lines
      = prior ++ (users.filter walk1Recorded).map
          (fun u => String.intercalate ","
            [u.username, COMMON_PASSWORD, token,
             ((walk1Cookies u).lookup "vunet_session").getD "",
             ((walk1Cookies u).lookup "X-VuNet-HTTP-Info").getD "",
             ((walk1Cookies u).lookup "grafana_session_expiry").getD ""]) := by
  simp [userCookies1_main, hok, userCookies1_loop_eq, userCookies1Row]

/-- C10 witness: a concrete run appending one six-field row, with the admin
token `tok` as the third field, after a pre-existing line. -/
theorem c10_witness :
    (userCookies1_main ⟨200, [("access_token", "tok")]⟩ ["old,row"]
        [⟨"u7", 201, ⟨200, ["id7"]⟩,
          ⟨some "/x", "<form action=\"https://kc/login\">", some "/done",
            [("vunet_session", "v")]⟩⟩]).lines
      = ["old,row"] ++ (([⟨"u7", 201, ⟨200, ["id7"]⟩,
            ⟨some "/x", "<form action=\"https://kc/login\">", some "/done",
              [("vunet_session", "v")]⟩⟩] : List Walk1UserInput).filter
          walk1Recorded).map
          (fun u => String.intercalate ","
            [u.username, COMMON_PASSWORD, "tok",
             ((walk1Cookies u).lookup "vunet_session").getD "",
             ((walk1Cookies u).lookup "X-VuNet-HTTP-Info").getD "",
             ((walk1Cookies u).lookup "grafana_session_expiry").getD ""]) :=
  c10_six_field_rows_appended ⟨200, [("access_token", "tok")]⟩ "tok"
    ["old,row"]
    [⟨"u7", 201, ⟨200, ["id7"]⟩,
      ⟨some "/x", "<form action=\"https://kc/login\">", some "/done",
        [("vunet_session", "v")]⟩⟩] rfl

/-- C8 witness: the browser resource is released on a concrete run of each
of the three exit paths. -/
theorem c8_witness :
    browserReleased (login_run (.navError "Page.goto: timeout")) = true
    ∧ browserReleased (login_run .waitTimeout) = true
    ∧ browserReleased (login_run (.loggedIn [("vunet_session", "s")])) = true :=
  ⟨c8_browser_released_on_every_path (.navError "Page.goto: timeout"),
   c8_browser_released_on_every_path .waitTimeout,
   c8_browser_released_on_every_path (.loggedIn [("vunet_session", "s")])⟩
